import Mathlib

set_option maxRecDepth 4096
set_option linter.unusedVariables false

/-!
Shallow embedding of the OAuth2 authorization subsystem of the
wetrack-mcp-server repository (src/src/oauth.py, src/src/auth.py,
src/src/config/settings.py), together with theorems settling the frozen
claims about it.

Modelling conventions:
* Python `Optional[str]` values (query parameters, form fields, settings)
  become `Option String`; Python truthiness of a string-or-None value is
  `getTruthy` (absent or empty string are both falsy).
* Wall-clock instants (`datetime.utcnow()`) become a `Nat` number of
  seconds passed explicitly as `now`; `timedelta(minutes=10)` is `600`
  and the 24-hour token lifetime is `86400`.
* The module-global dictionaries `_token_store` / `_authorization_codes`
  and the JSON snapshot file written by `_save_storage` become the four
  maps of `OAuthState`; `saveStorage` copies the in-memory maps onto the
  `disk*` fields, mirroring the fact that `_save_storage` rewrites the
  whole snapshot from the in-memory state.
* Randomness (`secrets.token_urlsafe`) is externalised: the fresh code or
  token is a parameter of the operation.
* `raise HTTPException(...)` becomes returning `Except.error e` for a
  dedicated error constructor carrying the same distinction the HTTP
  status code and detail string make in the source.
-/

/-- Python truthiness of an `Optional[str]`: `None` and `""` are falsy;
a non-empty string is returned unchanged. -/
def getTruthy : Option String → Option String
  | none => none
  | some s => if s = "" then none else some s

/-- Python `x or d` for `x : Optional[str]`: the default wins when `x`
is `None` or the empty string. -/
def pyOr (x : Option String) (d : String) : String :=
  match x with
  | none => d
  | some s => if s = "" then d else s

/-- Insert (or overwrite) a binding in a string-keyed map. -/
def insertKey {α : Type} (m : String → Option α) (k : String) (v : α) :
    String → Option α :=
  fun x => if x = k then some v else m x

/-- Remove a binding from a string-keyed map (`del m[k]`). -/
def deleteKey {α : Type} (m : String → Option α) (k : String) :
    String → Option α :=
  fun x => if x = k then none else m x

/-! ### SHA-256 (FIPS 180-4), as used by the PKCE `S256` method

`hashlib.sha256(code_verifier.encode()).digest()` in the source. All
words are `Nat`s reduced modulo `2^32`. -/

/-- Right-rotation of a 32-bit word. -/
def rotr32 (n x : Nat) : Nat :=
  ((x >>> n) ||| (x <<< (32 - n))) % 4294967296

/-- SHA-256 round constants (fractional parts of cube roots of the first
64 primes). -/
def sha256K : List Nat :=
  [1116352408, 1899447441, 3049323471, 3921009573, 961987163, 1508970993,
   2453635748, 2870763221, 3624381080, 310598401, 607225278, 1426881987,
   1925078388, 2162078206, 2614888103, 3248222580, 3835390401, 4022224774,
   264347078, 604807628, 770255983, 1249150122, 1555081692, 1996064986,
   2554220882, 2821834349, 2952996808, 3210313671, 3336571891, 3584528711,
   113926993, 338241895, 666307205, 773529912, 1294757372, 1396182291,
   1695183700, 1986661051, 2177026350, 2456956037, 2730485921, 2820302411,
   3259730800, 3345764771, 3516065817, 3600352804, 4094571909, 275423344,
   430227734, 506948616, 659060556, 883997877, 958139571, 1322822218,
   1537002063, 1747873779, 1955562222, 2024104815, 2227730452, 2361852424,
   2428436474, 2756734187, 3204031479, 3329325298]

/-- SHA-256 initial hash value. -/
def sha256H0 : List Nat :=
  [1779033703, 3144134277, 1013904242, 2773480762, 1359893119, 2600822924,
   528734635, 1541459225]

/-- Big-endian byte decomposition of `v` into `n` bytes. -/
def toBytesBE : Nat → Nat → List Nat
  | 0, _ => []
  | n + 1, v => toBytesBE n (v / 256) ++ [v % 256]

/-- SHA-256 message padding: append `0x80`, zero bytes up to 56 mod 64,
then the bit length as an 8-byte big-endian integer. -/
def sha256Pad (msg : List Nat) : List Nat :=
  let L := msg.length
  let k := (120 - (L + 1) % 64) % 64
  msg ++ [128] ++ List.replicate k 0 ++ toBytesBE 8 (8 * L)

/-- Split a list into chunks of `n` elements, structurally recursive on a
fuel argument so that it reduces inside the kernel. -/
def chunkListAux {α : Type} : Nat → Nat → List α → List (List α)
  | 0, _, _ => []
  | _, _, [] => []
  | fuel + 1, n, l => (l.take n) :: chunkListAux fuel n (l.drop n)

/-- Split a list into chunks of `n` elements (`n > 0`; the padded message
length is a multiple of 64). -/
def chunkList {α : Type} (n : Nat) (l : List α) : List (List α) :=
  chunkListAux l.length n l

/-- Assemble four bytes into a big-endian 32-bit word. -/
def wordOfBytes : List Nat → Nat
  | [b0, b1, b2, b3] => b0 * 16777216 + b1 * 65536 + b2 * 256 + b3
  | _ => 0

/-- σ₀ small sigma of the message schedule. -/
def ssig0 (x : Nat) : Nat := rotr32 7 x ^^^ rotr32 18 x ^^^ (x >>> 3)

/-- σ₁ small sigma of the message schedule. -/
def ssig1 (x : Nat) : Nat := rotr32 17 x ^^^ rotr32 19 x ^^^ (x >>> 10)

/-- Σ₀ big sigma of the compression function. -/
def bsig0 (x : Nat) : Nat := rotr32 2 x ^^^ rotr32 13 x ^^^ rotr32 22 x

/-- Σ₁ big sigma of the compression function. -/
def bsig1 (x : Nat) : Nat := rotr32 6 x ^^^ rotr32 11 x ^^^ rotr32 25 x

/-- Extend the 16 block words to the 64-entry message schedule. -/
def sha256Schedule (w16 : List Nat) : List Nat :=
  (List.range 48).foldl
    (fun ws _ =>
      let n := ws.length
      ws ++ [(ssig1 (ws.getD (n - 2) 0) + ws.getD (n - 7) 0 +
              ssig0 (ws.getD (n - 15) 0) + ws.getD (n - 16) 0) % 4294967296])
    w16

/-- One SHA-256 compression step state: the eight working words. -/
structure Sha256Work where
  a : Nat
  b : Nat
  c : Nat
  d : Nat
  e : Nat
  f : Nat
  g : Nat
  hh : Nat

/-- One round of the SHA-256 compression function. -/
def sha256Round (st : Sha256Work) (kw : Nat × Nat) : Sha256Work :=
  let ch := (st.e &&& st.f) ^^^ ((4294967295 ^^^ st.e) &&& st.g)
  let maj := (st.a &&& st.b) ^^^ (st.a &&& st.c) ^^^ (st.b &&& st.c)
  let t1 := (st.hh + bsig1 st.e + ch + kw.1 + kw.2) % 4294967296
  let t2 := (bsig0 st.a + maj) % 4294967296
  { a := (t1 + t2) % 4294967296, b := st.a, c := st.b, d := st.c,
    e := (st.d + t1) % 4294967296, f := st.e, g := st.f, hh := st.g }

/-- Process one 64-byte block, updating the eight-word hash state. -/
def sha256Block (H : List Nat) (block : List Nat) : List Nat :=
  let w := sha256Schedule ((chunkList 4 block).map wordOfBytes)
  let init : Sha256Work :=
    { a := H.getD 0 0, b := H.getD 1 0, c := H.getD 2 0, d := H.getD 3 0,
      e := H.getD 4 0, f := H.getD 5 0, g := H.getD 6 0, hh := H.getD 7 0 }
  let fin := (sha256K.zip w).foldl sha256Round init
  [(H.getD 0 0 + fin.a) % 4294967296, (H.getD 1 0 + fin.b) % 4294967296,
   (H.getD 2 0 + fin.c) % 4294967296, (H.getD 3 0 + fin.d) % 4294967296,
   (H.getD 4 0 + fin.e) % 4294967296, (H.getD 5 0 + fin.f) % 4294967296,
   (H.getD 6 0 + fin.g) % 4294967296, (H.getD 7 0 + fin.hh) % 4294967296]

/-- SHA-256 digest of a byte list, as a list of 32 bytes. -/
def sha256Bytes (msg : List Nat) : List Nat :=
  let H := (chunkList 64 (sha256Pad msg)).foldl sha256Block sha256H0
  (H.map (toBytesBE 4)).flatten

/-! ### UTF-8 and URL-safe base64, as used by `.encode()` and
`base64.urlsafe_b64encode(...).decode().rstrip('=')` -/

/-- UTF-8 encoding of a single character (code point). -/
def utf8Char (c : Char) : List Nat :=
  let n := c.toNat
  if n < 128 then [n]
  else if n < 2048 then [192 + n / 64, 128 + n % 64]
  else if n < 65536 then [224 + n / 4096, 128 + (n / 64) % 64, 128 + n % 64]
  else [240 + n / 262144, 128 + (n / 4096) % 64, 128 + (n / 64) % 64,
        128 + n % 64]

/-- UTF-8 encoding of a string (`str.encode()` in the source). -/
def utf8Bytes (s : String) : List Nat :=
  (s.toList.map utf8Char).flatten

/-- The URL-safe base64 alphabet. -/
def b64urlAlphabet : List Char :=
  "ABCDEFGHIJKLMNOPQRSTUVWXYZabcdefghijklmnopqrstuvwxyz0123456789-_".toList

/-- The `n`-th character of the URL-safe base64 alphabet. -/
def b64Char (n : Nat) : Char := b64urlAlphabet.getD n 'A'

/-- URL-safe base64 without padding: identical to
`base64.urlsafe_b64encode(bytes).decode().rstrip('=')` in the source
(`bᵢ/4 = bᵢ >> 2`, `(bᵢ%4)*16 = (bᵢ&3) << 4`, etc.; stripping `'='`
is realised by emitting only the data characters of the final group). -/
def b64urlNoPad : List Nat → List Char
  | [] => []
  | [b0] => [b64Char (b0 / 4), b64Char (b0 % 4 * 16)]
  | [b0, b1] =>
      [b64Char (b0 / 4), b64Char (b0 % 4 * 16 + b1 / 16),
       b64Char (b1 % 16 * 4)]
  | b0 :: b1 :: b2 :: rest =>
      b64Char (b0 / 4) :: b64Char (b0 % 4 * 16 + b1 / 16) ::
      b64Char (b1 % 16 * 4 + b2 / 64) :: b64Char (b2 % 64) ::
      b64urlNoPad rest

/-- The PKCE `S256` transform applied to a verifier:
`base64.urlsafe_b64encode(hashlib.sha256(v.encode()).digest()).decode().rstrip('=')`. -/
def s256Transform (verifier : String) : String :=
  String.mk (b64urlNoPad (sha256Bytes (utf8Bytes verifier)))

/-! ### Configuration (src/src/config/settings.py)

Only the authentication-relevant fields; the pydantic defaults are the
values recorded in `defaultAuthSettings`. -/

/-- The authentication-relevant fields of `Settings`. -/
structure Settings where
  oauth_client_id : Option String
  oauth_client_secret : Option String
  oauth_enabled : Bool
  bearer_token : Option String
  bearer_token_enabled : Bool
  mcp_token : Option String

/-- The pydantic defaults of the authentication fields of `Settings`. -/
def defaultAuthSettings : Settings :=
  { oauth_client_id := none, oauth_client_secret := none,
    oauth_enabled := false, bearer_token := none,
    bearer_token_enabled := false, mcp_token := none }

/-! ### Stored records and state (src/src/oauth.py) -/

/-- One entry of `_authorization_codes`: the dict built in
`handle_authorize`.  The PKCE keys are present together or absent
together in the source; `code_challenge_method` keeps its own `Option`
because `handle_token` reads it with `.get(..., "plain")`. -/
structure AuthCodeData where
  client_id : String
  redirect_uri : String
  scope : String
  created_at : Nat
  expires_at : Nat
  code_challenge : Option String
  code_challenge_method : Option String
deriving DecidableEq, Repr

/-- One entry of `_token_store`: the dict built in `create_access_token`. -/
structure TokenData where
  access_token : String
  token_type : String
  expires_in : Nat
  scope : String
  client_id : String
  created_at : Nat
  expires_at : Nat
deriving DecidableEq, Repr

/-- The mutable state of the oauth module: the two in-memory dicts plus
the snapshot file written by `_save_storage` (modelled as a second copy
of each map). -/
structure OAuthState where
  codes : String → Option AuthCodeData
  tokens : String → Option TokenData
  diskCodes : String → Option AuthCodeData
  diskTokens : String → Option TokenData

/-- `_save_storage()`: rewrite the whole snapshot from the in-memory
maps. -/
def saveStorage (st : OAuthState) : OAuthState :=
  { st with diskCodes := st.codes, diskTokens := st.tokens }

/-- The empty store (fresh start, or load of a missing/corrupt file). -/
def emptyState : OAuthState :=
  { codes := fun _ => none, tokens := fun _ => none,
    diskCodes := fun _ => none, diskTokens := fun _ => none }

/-! ### Client credential check and token minting -/

/-- `verify_client_credentials` (src/src/oauth.py lines 96-115): false
when oauth is disabled; false when either configured credential is unset
or empty (Python truthiness of the `and`); otherwise exact equality of
both components. -/
def verify_client_credentials (s : Settings) (client_id client_secret : String) :
    Bool :=
  if !s.oauth_enabled then false
  else
    match getTruthy s.oauth_client_id, getTruthy s.oauth_client_secret with
    | some cid, some cs => client_id = cid && client_secret = cs
    | _, _ => false

/-- `create_access_token` (lines 118-146): mint the token dict, insert it
into `_token_store`, persist.  The random token and the current time are
parameters. -/
def create_access_token (freshToken client_id : String) (scope : Option String)
    (now : Nat) (st : OAuthState) : TokenData × OAuthState :=
  let td : TokenData :=
    { access_token := freshToken, token_type := "Bearer", expires_in := 86400,
      scope := pyOr scope "mcp", client_id := client_id,
      created_at := now, expires_at := now + 86400 }
  (td, saveStorage { st with tokens := insertKey st.tokens freshToken td })

/-- `verify_access_token` (lines 149-177): absent if not stored; if
stored but `now > expires_at`, delete, persist, absent; else the record. -/
def verify_access_token (token : String) (now : Nat) (st : OAuthState) :
    Option TokenData × OAuthState :=
  match st.tokens token with
  | none => (none, st)
  | some td =>
    if now > td.expires_at then
      (none, saveStorage { st with tokens := deleteKey st.tokens token })
    else (some td, st)

/-! ### Authorization endpoint (handle_authorize, lines 180-256) -/

/-- The query parameters of the authorization endpoint; each is absent
or a (possibly empty) string. -/
structure AuthRequest where
  client_id : Option String
  redirect_uri : Option String
  response_type : Option String
  state : Option String
  scope : Option String
  code_challenge : Option String
  code_challenge_method : Option String

/-- The distinct `HTTPException`s raised by `handle_authorize`, in source
order. -/
inductive AuthorizeErr
  | oauthDisabled
  | clientIdRequired
  | redirectUriRequired
  | badResponseType
  | invalidClientId
deriving DecidableEq

/-- The HTTP status code of each `handle_authorize` failure. -/
def AuthorizeErr.statusCode : AuthorizeErr → Nat
  | .invalidClientId => 401
  | _ => 400

/-- `handle_authorize`: validate, mint a code with a 10-minute TTL,
record the PKCE challenge and method when a (truthy) challenge was
supplied, persist, and return the redirect URL.  The random code and the
current time are parameters. -/
def handle_authorize (s : Settings) (req : AuthRequest) (freshCode : String)
    (now : Nat) (st : OAuthState) : Except AuthorizeErr String × OAuthState :=
  if !s.oauth_enabled then (.error .oauthDisabled, st)
  else
    let scope := req.scope.getD "mcp"
    let method := req.code_challenge_method.getD "plain"
    match getTruthy req.client_id with
    | none => (.error .clientIdRequired, st)
    | some cid =>
      match getTruthy req.redirect_uri with
      | none => (.error .redirectUriRequired, st)
      | some ru =>
        if req.response_type ≠ some "code" then (.error .badResponseType, st)
        else if some cid ≠ s.oauth_client_id then (.error .invalidClientId, st)
        else
          let base : AuthCodeData :=
            { client_id := cid, redirect_uri := ru, scope := scope,
              created_at := now, expires_at := now + 600,
              code_challenge := none, code_challenge_method := none }
          let acd :=
            match getTruthy req.code_challenge with
            | some ch =>
              { base with code_challenge := some ch,
                          code_challenge_method := some method }
            | none => base
          let st' := saveStorage { st with codes := insertKey st.codes freshCode acd }
          let url :=
            match getTruthy req.state with
            | some stv => ru ++ "?code=" ++ freshCode ++ "&state=" ++ stv
            | none => ru ++ "?code=" ++ freshCode
          (.ok url, st')

/-! ### Token endpoint (handle_token, lines 259-389) -/

/-- The form fields of the token endpoint. -/
structure TokenRequest where
  grant_type : Option String
  code : Option String
  redirect_uri : Option String
  client_id : Option String
  client_secret : Option String
  code_verifier : Option String

/-- The distinct `HTTPException`s raised by `handle_token`, one
constructor per raise site, in source order. -/
inductive TokenErr
  | oauthDisabled
  | badGrantType
  | codeRequired
  | credsRequired
  | invalidClient
  | codeNotFound
  | codeExpired
  | redirectMismatch
  | clientIdMismatch
  | verifierRequired
  | pkceFailed
  | unsupportedMethod (m : String)
deriving DecidableEq, Repr

/-- The HTTP status code of each `handle_token` failure. -/
def TokenErr.statusCode : TokenErr → Nat
  | .invalidClient => 401
  | _ => 400

/-- The spec's error taxonomy maps both "code unknown" (`Invalid or
expired authorization code`) and "code expired" (`Authorization code
expired`) to the single class `InvalidGrant`. -/
def TokenErr.isInvalidGrant : TokenErr → Bool
  | .codeNotFound => true
  | .codeExpired => true
  | _ => false

/-- The PKCE block of `handle_token` (lines 341-375): raises (returns
`some e`) or falls through (`none`).  Performed only when the stored code
carries a challenge; the method is read with `.get(..., "plain")`. -/
def pkceCheck (acd : AuthCodeData) (code_verifier : Option String) :
    Option TokenErr :=
  match acd.code_challenge with
  | none => none
  | some stored_challenge =>
    match getTruthy code_verifier with
    | none => some .verifierRequired
    | some v =>
      let challenge_method := acd.code_challenge_method.getD "plain"
      if challenge_method = "S256" then
        if s256Transform v ≠ stored_challenge then some .pkceFailed else none
      else if challenge_method = "plain" then
        if v ≠ stored_challenge then some .pkceFailed else none
      else some (.unsupportedMethod challenge_method)

/-- `handle_token`: the authorization-code exchange.  The random access
token and the current time are parameters; the result pairs the response
(or the error raised) with the updated state. -/
def handle_token (s : Settings) (req : TokenRequest) (freshToken : String)
    (now : Nat) (st : OAuthState) : Except TokenErr TokenData × OAuthState :=
  if !s.oauth_enabled then (.error .oauthDisabled, st)
  else if req.grant_type ≠ some "authorization_code" then
    (.error .badGrantType, st)
  else
    match getTruthy req.code with
    | none => (.error .codeRequired, st)
    | some code =>
      match getTruthy req.client_id, getTruthy req.client_secret with
      | some client_id, some client_secret =>
        if !verify_client_credentials s client_id client_secret then
          (.error .invalidClient, st)
        else
          match st.codes code with
          | none => (.error .codeNotFound, st)
          | some acd =>
            if now > acd.expires_at then
              (.error .codeExpired,
               saveStorage { st with codes := deleteKey st.codes code })
            else if (match getTruthy req.redirect_uri with
                     | some ru => ru != acd.redirect_uri
                     | none => false) then
              (.error .redirectMismatch, st)
            else if client_id ≠ acd.client_id then
              (.error .clientIdMismatch, st)
            else
              match pkceCheck acd req.code_verifier with
              | some e => (.error e, st)
              | none =>
                let (td, st1) :=
                  create_access_token freshToken client_id
                    (some acd.scope) now st
                (.ok td,
                 saveStorage { st1 with codes := deleteKey st1.codes code })
      | _, _ => (.error .credsRequired, st)

/-! ### Authentication gateway (src/src/auth.py) -/

/-- The outcome of the gateway: `authorized`, or one of the distinct 401
rejections of src/src/auth.py (one constructor per raise site). -/
inductive AuthnResult
  | authorized
  | missingHeader
  | missingOAuthToken
  | invalidOrExpiredToken
  | invalidToken
deriving DecidableEq

/-- `verify_bearer_token` (lines 14-44): pass when the mode is disabled;
otherwise require a credential and compare it to the configured static
bearer value (`credentials.credentials != settings.bearer_token`, a
comparison against an `Optional[str]`). -/
def verify_bearer_token (s : Settings) (credentials : Option String) :
    AuthnResult :=
  if !s.bearer_token_enabled then .authorized
  else
    match credentials with
    | none => .missingHeader
    | some c => if s.bearer_token = some c then .authorized else .invalidToken

/-- `verify_oauth_token` (lines 47-84): pass when oauth is disabled;
reject an empty token; otherwise delegate to `verify_access_token`
(which may evict an expired token from the store). -/
def verify_oauth_token (s : Settings) (token : String) (now : Nat)
    (st : OAuthState) : AuthnResult × OAuthState :=
  if !s.oauth_enabled then (.authorized, st)
  else if token = "" then (.missingOAuthToken, st)
  else
    match verify_access_token token now st with
    | (none, st') => (.invalidOrExpiredToken, st')
    | (some _, st') => (.authorized, st')

/-- `verify_authentication` (lines 87-157): the priority chain
OAuth > static bearer > MCP shared secret > none.  `credentials` is the
parsed Authorization header (`none` when the header is absent; a present
header carries a possibly empty token string). -/
def verify_authentication (s : Settings) (credentials : Option String)
    (now : Nat) (st : OAuthState) : AuthnResult × OAuthState :=
  if !s.bearer_token_enabled && !s.oauth_enabled && !(getTruthy s.mcp_token).isSome then
    (.authorized, st)
  else if s.oauth_enabled then
    match credentials with
    | some token => verify_oauth_token s token now st
    | none => (.missingHeader, st)
  else if s.bearer_token_enabled then
    (verify_bearer_token s credentials, st)
  else
    match getTruthy s.mcp_token with
    | some _ =>
      (match credentials with
       | none => (.missingHeader, st)
       | some c =>
         if s.mcp_token ≠ some c then (.invalidToken, st)
         else (.authorized, st))
    | none => (.authorized, st)

/-! ### Spec-side formulation of the Exchange validation order (claim C6)

The spec lists ten checks, "each a distinct terminal failure", and says
the first failing check determines the error.  Each check below is
written from the spec's wording as an independent test returning its own
error when *it* fails (a check whose prerequisites are missing reports
nothing; an earlier check fires first).  `firstFailing` picks the first
failure of the ordered list. -/

/-- Spec check 1: feature enabled. -/
def specCheckEnabled (s : Settings) : Option TokenErr :=
  if s.oauth_enabled then none else some .oauthDisabled

/-- Spec check 2: `grant_type` must equal `"authorization_code"`. -/
def specCheckGrantType (req : TokenRequest) : Option TokenErr :=
  if req.grant_type = some "authorization_code" then none
  else some .badGrantType

/-- Spec check 3: `code`, `client_id`, `client_secret` all required
(the source raises a separate message for a missing `code`). -/
def specCheckRequired (req : TokenRequest) : Option TokenErr :=
  match getTruthy req.code, getTruthy req.client_id,
        getTruthy req.client_secret with
  | none, _, _ => some .codeRequired
  | some _, some _, some _ => none
  | _, _, _ => some .credsRequired

/-- Spec check 4: client credentials must match the configured client. -/
def specCheckClient (s : Settings) (req : TokenRequest) : Option TokenErr :=
  match getTruthy req.client_id, getTruthy req.client_secret with
  | some cid, some cs =>
    if verify_client_credentials s cid cs then none else some .invalidClient
  | _, _ => none

/-- Spec check 5: the code must exist in the store. -/
def specCheckCodeExists (req : TokenRequest) (st : OAuthState) :
    Option TokenErr :=
  match getTruthy req.code with
  | some c => if (st.codes c).isSome then none else some .codeNotFound
  | none => none

/-- Spec check 6: the code must not be expired. -/
def specCheckNotExpired (req : TokenRequest) (now : Nat) (st : OAuthState) :
    Option TokenErr :=
  match getTruthy req.code with
  | some c =>
    match st.codes c with
    | some acd => if now > acd.expires_at then some .codeExpired else none
    | none => none
  | none => none

/-- Spec check 7: a supplied `redirect_uri` must equal the bound one. -/
def specCheckRedirect (req : TokenRequest) (st : OAuthState) :
    Option TokenErr :=
  match getTruthy req.code, getTruthy req.redirect_uri with
  | some c, some ru =>
    match st.codes c with
    | some acd =>
      if ru = acd.redirect_uri then none else some .redirectMismatch
    | none => none
  | _, _ => none

/-- Spec check 8: `client_id` must equal the one bound at issuance. -/
def specCheckClientBinding (req : TokenRequest) (st : OAuthState) :
    Option TokenErr :=
  match getTruthy req.code, getTruthy req.client_id with
  | some c, some cid =>
    match st.codes c with
    | some acd =>
      if cid = acd.client_id then none else some .clientIdMismatch
    | none => none
  | _, _ => none

/-- Spec check 9: PKCE verification against the stored challenge. -/
def specCheckPkce (req : TokenRequest) (st : OAuthState) : Option TokenErr :=
  match getTruthy req.code with
  | some c =>
    match st.codes c with
    | some acd => pkceCheck acd req.code_verifier
    | none => none
  | none => none

/-- The spec's ten-step validation list, in its order (step 10 is
success and contributes no failure). -/
def exchangeChecks (s : Settings) (req : TokenRequest) (now : Nat)
    (st : OAuthState) : List (Option TokenErr) :=
  [specCheckEnabled s, specCheckGrantType req, specCheckRequired req,
   specCheckClient s req, specCheckCodeExists req st,
   specCheckNotExpired req now st, specCheckRedirect req st,
   specCheckClientBinding req st, specCheckPkce req st]

/-- The first failing check of an ordered check list. -/
def firstFailing : List (Option TokenErr) → Option TokenErr
  | [] => none
  | none :: rest => firstFailing rest
  | some e :: _ => some e

/-! ### Concrete fixtures used by witnesses and counterexamples -/

/-- A deployment with OAuth enabled and the single client `c1`/`s1`. -/
def sEnabled : Settings :=
  { oauth_client_id := some "c1", oauth_client_secret := some "s1",
    oauth_enabled := true, bearer_token := some "B",
    bearer_token_enabled := true, mcp_token := some "M" }

/-- A stored plain authorization code bound to `c1` and `https://cb`,
expiring at 600, with no PKCE data. -/
def acdPlain : AuthCodeData :=
  { client_id := "c1", redirect_uri := "https://cb", scope := "mcp",
    created_at := 0, expires_at := 600,
    code_challenge := none, code_challenge_method := none }

/-- A stored code carrying the `S256` challenge for verifier `"v"`. -/
def acdS256 : AuthCodeData :=
  { acdPlain with code_challenge := some (s256Transform "v"),
                  code_challenge_method := some "S256" }

/-- A state holding the single code `"CODE"` with no PKCE data. -/
def stPlain : OAuthState :=
  { emptyState with
      codes := fun x => if x = "CODE" then some acdPlain else none }

/-- A state holding the single code `"CODE"` with an `S256` challenge. -/
def stS256 : OAuthState :=
  { emptyState with
      codes := fun x => if x = "CODE" then some acdS256 else none }

/-- A well-formed exchange request for `"CODE"` from client `c1`. -/
def reqPlain : TokenRequest :=
  { grant_type := some "authorization_code", code := some "CODE",
    redirect_uri := none, client_id := some "c1",
    client_secret := some "s1", code_verifier := none }

/-- The same exchange request carrying the verifier `"v"`. -/
def reqS256 : TokenRequest :=
  { reqPlain with code_verifier := some "v" }

/-- A stored access token expiring at 100. -/
def tdStored : TokenData :=
  { access_token := "t", token_type := "Bearer", expires_in := 86400,
    scope := "mcp", client_id := "c1", created_at := 0, expires_at := 100 }

/-- A state holding the single access token `"t"`. -/
def stToken : OAuthState :=
  { emptyState with
      tokens := fun x => if x = "t" then some tdStored else none,
      diskTokens := fun x => if x = "t" then some tdStored else none }

/-- The token record minted by a successful exchange. -/
def mintedToken (freshToken client_id scope : String) (now : Nat) :
    TokenData :=
  { access_token := freshToken, token_type := "Bearer", expires_in := 86400,
    scope := pyOr (some scope) "mcp", client_id := client_id,
    created_at := now, expires_at := now + 86400 }

/-- The state after a successful exchange: the code deleted, the fresh
token inserted, and both changes persisted to the snapshot. -/
def exchangeSuccessState (st : OAuthState) (code freshToken : String)
    (td : TokenData) : OAuthState :=
  { codes := deleteKey st.codes code,
    tokens := insertKey st.tokens freshToken td,
    diskCodes := deleteKey st.codes code,
    diskTokens := insertKey st.tokens freshToken td }

/-- A deployment with OAuth enabled but no client credentials
configured. -/
def sUnset : Settings := { defaultAuthSettings with oauth_enabled := true }

/-- The token minted by the concrete successful exchange used in
witnesses. -/
def tdMintedW : TokenData := mintedToken "TOK" "c1" "mcp" 0

/-- The state after that concrete successful exchange. -/
def stAfterW : OAuthState := exchangeSuccessState stPlain "CODE" "TOK" tdMintedW

/-- The authorization-code record minted by a successful
`handle_authorize`: PKCE data recorded only when a truthy challenge was
supplied, the method then defaulting to `"plain"`. -/
def authCodeRecord (req : AuthRequest) (cid ru : String) (now : Nat) :
    AuthCodeData :=
  match getTruthy req.code_challenge with
  | some ch =>
    { client_id := cid, redirect_uri := ru, scope := req.scope.getD "mcp",
      created_at := now, expires_at := now + 600,
      code_challenge := some ch,
      code_challenge_method := some (req.code_challenge_method.getD "plain") }
  | none =>
    { client_id := cid, redirect_uri := ru, scope := req.scope.getD "mcp",
      created_at := now, expires_at := now + 600,
      code_challenge := none, code_challenge_method := none }

/-- An authorization request that supplies `state` and `code_challenge`
as *empty* strings (with an explicit method): the C8 boundary input. -/
def reqAuthCx : AuthRequest :=
  { client_id := some "c1", redirect_uri := some "https://cb",
    response_type := some "code", state := some "", scope := none,
    code_challenge := some "", code_challenge_method := some "S256" }

/-- An authorization request that supplies a challenge *method* (an
unsupported one, even) but no challenge: the C10 input. -/
def reqAuthM : AuthRequest :=
  { client_id := some "c1", redirect_uri := some "https://cb",
    response_type := some "code", state := none, scope := none,
    code_challenge := none, code_challenge_method := some "bogus" }

/-- A fully-populated valid authorization request (non-empty state and
challenge), used by the C8 witness. -/
def reqAuthW : AuthRequest :=
  { client_id := some "c1", redirect_uri := some "https://cb",
    response_type := some "code", state := some "xyz", scope := none,
    code_challenge := some "CH", code_challenge_method := some "S256" }

/-- FIPS 180-4 test vector: SHA-256 of `"abc"`. -/
theorem sha256_abc_vector :
    sha256Bytes (utf8Bytes "abc") =
      [186, 120, 22, 191, 143, 1, 207, 234, 65, 65, 64, 222, 93, 174, 34, 35,
       176, 3, 97, 163, 150, 23, 122, 156, 180, 16, 255, 97, 242, 0, 21,
       173] := by decide

/-! ### Helper lemmas: outcome characterisations of `handle_token` -/

/-- With the stateless checks and the client check passing, an unknown
code yields `codeNotFound` and leaves the state untouched. -/
theorem handle_token_not_found {s : Settings} {req : TokenRequest}
    {f : String} {now : Nat} {st : OAuthState} {code cid cs : String}
    (hen : s.oauth_enabled = true)
    (hgt : req.grant_type = some "authorization_code")
    (hc : getTruthy req.code = some code)
    (hcid : getTruthy req.client_id = some cid)
    (hcs : getTruthy req.client_secret = some cs)
    (hvc : verify_client_credentials s cid cs = true)
    (hnone : st.codes code = none) :
    handle_token s req f now st = (.error .codeNotFound, st) := by
  simp [handle_token, hen, hgt, hc, hcid, hcs, hvc, hnone]

/-- With the stateless checks and the client check passing, an expired
stored code is deleted, the deletion persisted, and `codeExpired`
raised. -/
theorem handle_token_expired {s : Settings} {req : TokenRequest}
    {f : String} {now : Nat} {st : OAuthState} {code cid cs : String}
    {acd : AuthCodeData}
    (hen : s.oauth_enabled = true)
    (hgt : req.grant_type = some "authorization_code")
    (hc : getTruthy req.code = some code)
    (hcid : getTruthy req.client_id = some cid)
    (hcs : getTruthy req.client_secret = some cs)
    (hvc : verify_client_credentials s cid cs = true)
    (hacd : st.codes code = some acd)
    (hexp : now > acd.expires_at) :
    handle_token s req f now st =
      (.error .codeExpired,
       saveStorage { st with codes := deleteKey st.codes code }) := by
  simp [handle_token, hen, hgt, hc, hcid, hcs, hvc, hacd, hexp]

/-- With every check passing, the exchange mints the token, stores and
persists it, deletes the code and persists the deletion. -/
theorem handle_token_success {s : Settings} {req : TokenRequest}
    {f : String} {now : Nat} {st : OAuthState} {code cid cs : String}
    {acd : AuthCodeData}
    (hen : s.oauth_enabled = true)
    (hgt : req.grant_type = some "authorization_code")
    (hc : getTruthy req.code = some code)
    (hcid : getTruthy req.client_id = some cid)
    (hcs : getTruthy req.client_secret = some cs)
    (hvc : verify_client_credentials s cid cs = true)
    (hacd : st.codes code = some acd)
    (hexp : ¬ now > acd.expires_at)
    (hru : (match getTruthy req.redirect_uri with
            | some ru => ru != acd.redirect_uri
            | none => false) = false)
    (hcm : cid = acd.client_id)
    (hpk : pkceCheck acd req.code_verifier = none) :
    handle_token s req f now st =
      (.ok (mintedToken f cid acd.scope now),
       exchangeSuccessState st code f (mintedToken f cid acd.scope now)) := by
  simp [handle_token, hen, hgt, hc, hcid, hcs, hvc, hacd, hexp, hru, ← hcm,
        hpk, create_access_token, mintedToken, exchangeSuccessState,
        saveStorage]

/-- Inversion: a successful exchange can only come from the single
success branch, so the result token carries the fresh token string and
the final state is `exchangeSuccessState`. -/
theorem handle_token_ok_inv {s : Settings} {req : TokenRequest}
    {f : String} {now : Nat} {st : OAuthState} {code : String}
    {td : TokenData} {st' : OAuthState}
    (hc : getTruthy req.code = some code)
    (h : handle_token s req f now st = (Except.ok td, st')) :
    td.access_token = f ∧ st' = exchangeSuccessState st code f td := by
  simp only [handle_token, create_access_token] at h
  repeat' split at h
  all_goals simp_all [exchangeSuccessState, saveStorage, mintedToken]
  obtain ⟨h1, h2⟩ := h
  subst h1 h2
  simp [mintedToken]

/-- Inversion: every failing exchange other than the expired-code path
returns the state unchanged. -/
theorem handle_token_error_state {s : Settings} {req : TokenRequest}
    {f : String} {now : Nat} {st : OAuthState} {e : TokenErr}
    {st' : OAuthState}
    (h : handle_token s req f now st = (Except.error e, st'))
    (hne : e ≠ TokenErr.codeExpired) : st' = st := by
  simp only [handle_token, create_access_token] at h
  repeat' split at h
  all_goals simp_all

/-- C7: on every failing exchange other than the expired-code check, the
code store, the token store and the persisted snapshot are all left
exactly as they were. -/
theorem claim_C7 (s : Settings) (req : TokenRequest) (f : String)
    (now : Nat) (st : OAuthState) (e : TokenErr) (st' : OAuthState)
    (h : handle_token s req f now st = (Except.error e, st'))
    (hne : e ≠ TokenErr.codeExpired) :
    st'.codes = st.codes ∧ st'.tokens = st.tokens ∧
    st'.diskCodes = st.diskCodes ∧ st'.diskTokens = st.diskTokens := by
  have := handle_token_error_state h hne
  subst this
  exact ⟨rfl, rfl, rfl, rfl⟩

/-- Witness for C7 at a concrete failing input (feature disabled). -/
theorem claim_C7_witness :
    emptyState.codes = emptyState.codes ∧
    emptyState.tokens = emptyState.tokens ∧
    emptyState.diskCodes = emptyState.diskCodes ∧
    emptyState.diskTokens = emptyState.diskTokens :=
  claim_C7 defaultAuthSettings reqPlain "T" 0 emptyState
    TokenErr.oauthDisabled emptyState rfl (by decide)

/-- C9: with either configured client credential unset,
`verify_client_credentials` is false on every presented pair, so an
exchange that reaches the credential check fails with the
invalid-client error (and the state is untouched). -/
theorem claim_C9 (s : Settings)
    (hunset : s.oauth_client_id = none ∨ s.oauth_client_secret = none) :
    (∀ cid cs, verify_client_credentials s cid cs = false) ∧
    (∀ (req : TokenRequest) (f : String) (now : Nat) (st : OAuthState)
       (code cid cs : String),
       s.oauth_enabled = true →
       req.grant_type = some "authorization_code" →
       getTruthy req.code = some code →
       getTruthy req.client_id = some cid →
       getTruthy req.client_secret = some cs →
       handle_token s req f now st =
         (Except.error TokenErr.invalidClient, st)) := by
  have h1 : ∀ cid cs, verify_client_credentials s cid cs = false := by
    intro cid cs
    rcases hunset with h | h <;>
      simp [verify_client_credentials, h, getTruthy]
  refine ⟨h1, ?_⟩
  intro req f now st code cid cs hen hgt hc hcid hcs
  simp [handle_token, hen, hgt, hc, hcid, hcs, h1]

/-- Witness for C9: the configured pair itself is rejected when the
configuration is unset. -/
theorem claim_C9_witness :
    verify_client_credentials sUnset "c1" "s1" = false ∧
    handle_token sUnset reqPlain "T" 0 emptyState =
      (Except.error TokenErr.invalidClient, emptyState) :=
  ⟨(claim_C9 sUnset (Or.inl rfl)).1 "c1" "s1",
   (claim_C9 sUnset (Or.inl rfl)).2 reqPlain "T" 0 emptyState
     "CODE" "c1" "s1" rfl rfl rfl rfl rfl⟩

/-- C3 counterexample: at the boundary instant `now = expires_at` the
stored token is returned, i.e. treated as still *valid*, refuting the
claim's "at the boundary ... treated as still invalid". -/
theorem claim_C3_counterexample :
    tdStored.expires_at = 100 ∧
    (verify_access_token "t" 100 stToken).fst = some tdStored :=
  ⟨rfl, rfl⟩

/-- C3 (amended): for a stored token, `verify_access_token` returns
absent exactly when `now` is strictly greater than `expires_at`
(deleting the token and persisting the deletion in that case), and at
the boundary `now = expires_at` the token is still returned (valid). -/
theorem claim_C3 (token : String) (now : Nat) (st : OAuthState)
    (td : TokenData) (hst : st.tokens token = some td) :
    ((verify_access_token token now st).fst = none ↔ now > td.expires_at) ∧
    (now > td.expires_at →
       (verify_access_token token now st).snd.tokens token = none ∧
       (verify_access_token token now st).snd.diskTokens token = none) ∧
    (now = td.expires_at →
       (verify_access_token token now st).fst = some td) := by
  by_cases hgt : now > td.expires_at
  · refine ⟨by simp [verify_access_token, hst, hgt], ?_, ?_⟩
    · intro _
      simp [verify_access_token, hst, hgt, saveStorage, deleteKey]
    · intro hb
      omega
  · refine ⟨by simp [verify_access_token, hst, hgt], ?_, ?_⟩
    · intro h
      exact absurd h hgt
    · intro _
      simp [verify_access_token, hst, hgt]

/-- Witness for C3 at a concrete expired input. -/
theorem claim_C3_witness :
    ((verify_access_token "t" 101 stToken).fst = none ↔
       101 > tdStored.expires_at) ∧
    (101 > tdStored.expires_at →
       (verify_access_token "t" 101 stToken).snd.tokens "t" = none ∧
       (verify_access_token "t" 101 stToken).snd.diskTokens "t" = none) ∧
    (101 = tdStored.expires_at →
       (verify_access_token "t" 101 stToken).fst = some tdStored) :=
  claim_C3 "t" 101 stToken tdStored rfl

/-- C1: after one successful exchange of a code, the code is gone from
the store and from the persisted snapshot, the minted token is stored
and persisted, and any subsequent exchange presenting the same code
(passing the stateless and client checks) fails with the code-not-found
error, the spec's `InvalidGrant` class. -/
theorem claim_C1 (s : Settings) (req : TokenRequest) (f : String)
    (now : Nat) (st : OAuthState) (code : String) (td : TokenData)
    (st' : OAuthState)
    (hc : getTruthy req.code = some code)
    (h : handle_token s req f now st = (Except.ok td, st')) :
    st'.codes code = none ∧ st'.diskCodes code = none ∧
    st'.tokens td.access_token = some td ∧
    st'.diskTokens td.access_token = some td ∧
    (∀ (s2 : Settings) (req2 : TokenRequest) (f2 : String) (now2 : Nat)
       (cid2 cs2 : String),
       s2.oauth_enabled = true →
       req2.grant_type = some "authorization_code" →
       getTruthy req2.code = some code →
       getTruthy req2.client_id = some cid2 →
       getTruthy req2.client_secret = some cs2 →
       verify_client_credentials s2 cid2 cs2 = true →
       handle_token s2 req2 f2 now2 st' =
         (Except.error TokenErr.codeNotFound, st') ∧
       TokenErr.codeNotFound.isInvalidGrant = true) := by
  obtain ⟨hf, hst⟩ := handle_token_ok_inv hc h
  subst hst
  refine ⟨?_, ?_, ?_, ?_, ?_⟩
  · simp [exchangeSuccessState, deleteKey]
  · simp [exchangeSuccessState, deleteKey]
  · simp [exchangeSuccessState, insertKey, hf]
  · simp [exchangeSuccessState, insertKey, hf]
  · intro s2 req2 f2 now2 cid2 cs2 hen2 hgt2 hc2 hcid2 hcs2 hvc2
    refine ⟨handle_token_not_found hen2 hgt2 hc2 hcid2 hcs2 hvc2 ?_, rfl⟩
    simp [exchangeSuccessState, deleteKey]

/-- Witness for C1: a concrete successful exchange of `"CODE"`, followed
by a replay rejected as code-not-found. -/
theorem claim_C1_witness :
    stAfterW.codes "CODE" = none ∧ stAfterW.diskCodes "CODE" = none ∧
    stAfterW.tokens tdMintedW.access_token = some tdMintedW ∧
    stAfterW.diskTokens tdMintedW.access_token = some tdMintedW ∧
    (∀ (s2 : Settings) (req2 : TokenRequest) (f2 : String) (now2 : Nat)
       (cid2 cs2 : String),
       s2.oauth_enabled = true →
       req2.grant_type = some "authorization_code" →
       getTruthy req2.code = some "CODE" →
       getTruthy req2.client_id = some cid2 →
       getTruthy req2.client_secret = some cs2 →
       verify_client_credentials s2 cid2 cs2 = true →
       handle_token s2 req2 f2 now2 stAfterW =
         (Except.error TokenErr.codeNotFound, stAfterW) ∧
       TokenErr.codeNotFound.isInvalidGrant = true) :=
  claim_C1 sEnabled reqPlain "TOK" 0 stPlain "CODE" tdMintedW stAfterW
    rfl rfl

/-- C2: exchanging a stored but expired code (all stateless and client
checks passing) deletes the code, persists the deletion, and fails with
the code-expired error; a second exchange of the same code then fails
with the code-not-found error — both in the spec's `InvalidGrant`
class. -/
theorem claim_C2 (s : Settings) (req : TokenRequest) (f : String)
    (now : Nat) (st : OAuthState) (code cid cs : String)
    (acd : AuthCodeData)
    (hen : s.oauth_enabled = true)
    (hgt : req.grant_type = some "authorization_code")
    (hc : getTruthy req.code = some code)
    (hcid : getTruthy req.client_id = some cid)
    (hcs : getTruthy req.client_secret = some cs)
    (hvc : verify_client_credentials s cid cs = true)
    (hacd : st.codes code = some acd)
    (hexp : now > acd.expires_at) :
    (handle_token s req f now st).fst = Except.error TokenErr.codeExpired ∧
    TokenErr.codeExpired.isInvalidGrant = true ∧
    (handle_token s req f now st).snd.codes code = none ∧
    (handle_token s req f now st).snd.diskCodes code = none ∧
    (∀ (s2 : Settings) (req2 : TokenRequest) (f2 : String) (now2 : Nat)
       (cid2 cs2 : String),
       s2.oauth_enabled = true →
       req2.grant_type = some "authorization_code" →
       getTruthy req2.code = some code →
       getTruthy req2.client_id = some cid2 →
       getTruthy req2.client_secret = some cs2 →
       verify_client_credentials s2 cid2 cs2 = true →
       (handle_token s2 req2 f2 now2
          (handle_token s req f now st).snd).fst =
         Except.error TokenErr.codeNotFound ∧
       TokenErr.codeNotFound.isInvalidGrant = true) := by
  have hmain := handle_token_expired (f := f) hen hgt hc hcid hcs hvc hacd hexp
  rw [hmain]
  refine ⟨rfl, rfl, ?_, ?_, ?_⟩
  · simp [saveStorage, deleteKey]
  · simp [saveStorage, deleteKey]
  · intro s2 req2 f2 now2 cid2 cs2 hen2 hgt2 hc2 hcid2 hcs2 hvc2
    refine ⟨?_, rfl⟩
    rw [handle_token_not_found hen2 hgt2 hc2 hcid2 hcs2 hvc2
          (by simp [saveStorage, deleteKey])]

/-- Witness for C2: the stored code for `"CODE"` expired at time 600 and
is exchanged at time 601. -/
theorem claim_C2_witness :
    (handle_token sEnabled reqPlain "TOK" 601 stPlain).fst =
      Except.error TokenErr.codeExpired ∧
    TokenErr.codeExpired.isInvalidGrant = true ∧
    (handle_token sEnabled reqPlain "TOK" 601 stPlain).snd.codes "CODE" =
      none ∧
    (handle_token sEnabled reqPlain "TOK" 601 stPlain).snd.diskCodes
      "CODE" = none ∧
    (∀ (s2 : Settings) (req2 : TokenRequest) (f2 : String) (now2 : Nat)
       (cid2 cs2 : String),
       s2.oauth_enabled = true →
       req2.grant_type = some "authorization_code" →
       getTruthy req2.code = some "CODE" →
       getTruthy req2.client_id = some cid2 →
       getTruthy req2.client_secret = some cs2 →
       verify_client_credentials s2 cid2 cs2 = true →
       (handle_token s2 req2 f2 now2
          (handle_token sEnabled reqPlain "TOK" 601 stPlain).snd).fst =
         Except.error TokenErr.codeNotFound ∧
       TokenErr.codeNotFound.isInvalidGrant = true) :=
  claim_C2 sEnabled reqPlain "TOK" 601 stPlain "CODE" "c1" "s1" acdPlain
    rfl rfl rfl rfl rfl rfl rfl (by decide)

/-- C5: with OAuth enabled the gateway's outcome is independent of the
static-bearer and shared-secret configuration (they are never
consulted): an absent credential is rejected as missing, an
invalid/expired token as invalid-or-expired; and with no authentication
configured at all, every request is authorized unconditionally. -/
theorem claim_C5 (s : Settings) (credentials : Option String) (now : Nat)
    (st : OAuthState) :
    (s.oauth_enabled = true →
       (∀ (bt mt : Option String) (bte : Bool),
          verify_authentication
            { s with bearer_token := bt, bearer_token_enabled := bte,
                     mcp_token := mt } credentials now st =
            verify_authentication s credentials now st) ∧
       (credentials = none →
          verify_authentication s credentials now st =
            (AuthnResult.missingHeader, st)) ∧
       (∀ t, credentials = some t → t ≠ "" →
          (verify_access_token t now st).fst = none →
          (verify_authentication s credentials now st).fst =
            AuthnResult.invalidOrExpiredToken)) ∧
    (s.oauth_enabled = false → s.bearer_token_enabled = false →
       getTruthy s.mcp_token = none →
       verify_authentication s credentials now st =
         (AuthnResult.authorized, st)) := by
  constructor
  · intro hoa
    refine ⟨?_, ?_, ?_⟩
    · intro bt mt bte
      cases credentials <;>
        simp [verify_authentication, verify_oauth_token, hoa]
    · intro h
      subst h
      simp [verify_authentication, hoa]
    · intro t h hne hv
      subst h
      rcases h2 : verify_access_token t now st with ⟨o, st2⟩
      rw [h2] at hv
      simp at hv
      subst hv
      simp [verify_authentication, verify_oauth_token, hoa, hne, h2]
  · intro h1 h2 h3
    simp [verify_authentication, h1, h2, h3]

/-- Witness for C5 at a concrete deployment with OAuth enabled (and a
bearer token and MCP secret also configured). -/
theorem claim_C5_witness :
    (sEnabled.oauth_enabled = true →
       (∀ (bt mt : Option String) (bte : Bool),
          verify_authentication
            { sEnabled with bearer_token := bt, bearer_token_enabled := bte,
                            mcp_token := mt } (some "x") 0 emptyState =
            verify_authentication sEnabled (some "x") 0 emptyState) ∧
       (some "x" = none →
          verify_authentication sEnabled (some "x") 0 emptyState =
            (AuthnResult.missingHeader, emptyState)) ∧
       (∀ t, some "x" = some t → t ≠ "" →
          (verify_access_token t 0 emptyState).fst = none →
          (verify_authentication sEnabled (some "x") 0 emptyState).fst =
            AuthnResult.invalidOrExpiredToken)) ∧
    (sEnabled.oauth_enabled = false → sEnabled.bearer_token_enabled = false →
       getTruthy sEnabled.mcp_token = none →
       verify_authentication sEnabled (some "x") 0 emptyState =
         (AuthnResult.authorized, emptyState)) :=
  claim_C5 sEnabled (some "x") 0 emptyState

/-- With all its validations passing, `handle_authorize` stores
`authCodeRecord`, persists, and redirects to the bound URI with the code
(and any truthy state) attached. -/
theorem handle_authorize_success {s : Settings} {req : AuthRequest}
    {fc : String} {now : Nat} {st : OAuthState} {cid ru : String}
    (hen : s.oauth_enabled = true)
    (hcid : getTruthy req.client_id = some cid)
    (hru : getTruthy req.redirect_uri = some ru)
    (hrt : req.response_type = some "code")
    (hok : s.oauth_client_id = some cid) :
    handle_authorize s req fc now st =
      (Except.ok (match getTruthy req.state with
                  | some stv => ru ++ "?code=" ++ fc ++ "&state=" ++ stv
                  | none => ru ++ "?code=" ++ fc),
       saveStorage
         { st with codes := insertKey st.codes fc (authCodeRecord req cid ru now) }) := by
  cases hch : getTruthy req.code_challenge <;>
    cases hstv : getTruthy req.state <;>
      simp [handle_authorize, authCodeRecord, hen, hcid, hru, hrt, hok,
            hch, hstv]

/-- C8 counterexample: `state` is supplied (as the empty string) yet the
redirect carries no `&state=`, and a challenge *is* supplied (empty,
with method `S256`) yet no PKCE data is stored — refuting "appended if
and only if state was supplied" / "records ... when a challenge is
supplied" read as mere presence. -/
theorem claim_C8_counterexample :
    reqAuthCx.state = some "" ∧ reqAuthCx.code_challenge = some "" ∧
    (handle_authorize sEnabled reqAuthCx "CODE" 0 emptyState).fst =
      Except.ok "https://cb?code=CODE" ∧
    (handle_authorize sEnabled reqAuthCx "CODE" 0 emptyState).snd.codes
      "CODE" =
      some { client_id := "c1", redirect_uri := "https://cb", scope := "mcp",
             created_at := 0, expires_at := 600, code_challenge := none,
             code_challenge_method := none } := by
  refine ⟨rfl, rfl, ?_, ?_⟩ <;> rfl

/-- C8 (amended): for every valid authorization request the stored code
has `expires_at = created_at + 600`; PKCE challenge and method are
recorded exactly when a *non-empty* challenge is supplied (the method
defaulting to `"plain"` when absent); and the redirect is exactly
`{redirect_uri}?code={code}`, with `&state={state}` appended (verbatim)
if and only if a *non-empty* state was supplied. -/
theorem claim_C8 (s : Settings) (req : AuthRequest) (fc : String)
    (now : Nat) (st : OAuthState) (cid ru : String)
    (hen : s.oauth_enabled = true)
    (hcid : getTruthy req.client_id = some cid)
    (hru : getTruthy req.redirect_uri = some ru)
    (hrt : req.response_type = some "code")
    (hok : s.oauth_client_id = some cid) :
    ∃ acd : AuthCodeData,
      (handle_authorize s req fc now st).snd.codes fc = some acd ∧
      (handle_authorize s req fc now st).snd.diskCodes fc = some acd ∧
      acd.client_id = cid ∧ acd.redirect_uri = ru ∧
      acd.created_at = now ∧ acd.expires_at = acd.created_at + 600 ∧
      (getTruthy req.code_challenge = none →
         acd.code_challenge = none ∧ acd.code_challenge_method = none) ∧
      (∀ ch, getTruthy req.code_challenge = some ch →
         acd.code_challenge = some ch ∧
         acd.code_challenge_method =
           some (req.code_challenge_method.getD "plain")) ∧
      (getTruthy req.state = none →
         (handle_authorize s req fc now st).fst =
           Except.ok (ru ++ "?code=" ++ fc)) ∧
      (∀ stv, getTruthy req.state = some stv →
         (handle_authorize s req fc now st).fst =
           Except.ok (ru ++ "?code=" ++ fc ++ "&state=" ++ stv)) := by
  rw [handle_authorize_success hen hcid hru hrt hok]
  refine ⟨authCodeRecord req cid ru now, ?_, ?_, ?_, ?_, ?_, ?_, ?_, ?_, ?_, ?_⟩
  · simp [saveStorage, insertKey]
  · simp [saveStorage, insertKey]
  · cases hch : getTruthy req.code_challenge <;> simp [authCodeRecord, hch]
  · cases hch : getTruthy req.code_challenge <;> simp [authCodeRecord, hch]
  · cases hch : getTruthy req.code_challenge <;> simp [authCodeRecord, hch]
  · cases hch : getTruthy req.code_challenge <;> simp [authCodeRecord, hch]
  · intro h
    simp [authCodeRecord, h]
  · intro ch h
    simp [authCodeRecord, h]
  · intro h
    simp [h]
  · intro stv h
    simp [h]

/-- Witness for C8 at a concrete request carrying a non-empty state and
a non-empty `S256` challenge. -/
theorem claim_C8_witness :
    ∃ acd : AuthCodeData,
      (handle_authorize sEnabled reqAuthW "CODE" 0 emptyState).snd.codes
        "CODE" = some acd ∧
      (handle_authorize sEnabled reqAuthW "CODE" 0 emptyState).snd.diskCodes
        "CODE" = some acd ∧
      acd.client_id = "c1" ∧ acd.redirect_uri = "https://cb" ∧
      acd.created_at = 0 ∧ acd.expires_at = acd.created_at + 600 ∧
      (getTruthy reqAuthW.code_challenge = none →
         acd.code_challenge = none ∧ acd.code_challenge_method = none) ∧
      (∀ ch, getTruthy reqAuthW.code_challenge = some ch →
         acd.code_challenge = some ch ∧
         acd.code_challenge_method =
           some (reqAuthW.code_challenge_method.getD "plain")) ∧
      (getTruthy reqAuthW.state = none →
         (handle_authorize sEnabled reqAuthW "CODE" 0 emptyState).fst =
           Except.ok ("https://cb" ++ "?code=" ++ "CODE")) ∧
      (∀ stv, getTruthy reqAuthW.state = some stv →
         (handle_authorize sEnabled reqAuthW "CODE" 0 emptyState).fst =
           Except.ok ("https://cb" ++ "?code=" ++ "CODE" ++ "&state=" ++ stv)) :=
  claim_C8 sEnabled reqAuthW "CODE" 0 emptyState "c1" "https://cb"
    rfl rfl rfl rfl rfl

/-- C10: an authorization request supplying a `code_challenge_method`
(any value, even an unsupported one) but no `code_challenge` stores the
code with no PKCE data, and the later exchange of that code succeeds
with no PKCE verification and no `code_verifier` requirement (the
verifier field of the exchange request is left arbitrary). -/
theorem claim_C10 (s : Settings) (req : AuthRequest) (fc : String)
    (now : Nat) (st : OAuthState) (cid ru m : String)
    (hen : s.oauth_enabled = true)
    (hcid : getTruthy req.client_id = some cid)
    (hru : getTruthy req.redirect_uri = some ru)
    (hrt : req.response_type = some "code")
    (hok : s.oauth_client_id = some cid)
    (hm : req.code_challenge_method = some m)
    (hch : req.code_challenge = none) :
    (handle_authorize s req fc now st).snd.codes fc =
      some { client_id := cid, redirect_uri := ru,
             scope := req.scope.getD "mcp", created_at := now,
             expires_at := now + 600, code_challenge := none,
             code_challenge_method := none } ∧
    (∀ (s2 : Settings) (req2 : TokenRequest) (f2 : String) (now2 : Nat)
       (cs2 : String),
       s2.oauth_enabled = true →
       req2.grant_type = some "authorization_code" →
       getTruthy req2.code = some fc →
       getTruthy req2.client_id = some cid →
       getTruthy req2.client_secret = some cs2 →
       verify_client_credentials s2 cid cs2 = true →
       getTruthy req2.redirect_uri = none →
       ¬ now2 > now + 600 →
       (handle_token s2 req2 f2 now2
          (handle_authorize s req fc now st).snd).fst =
         Except.ok (mintedToken f2 cid (req.scope.getD "mcp") now2)) := by
  rw [handle_authorize_success hen hcid hru hrt hok]
  have hrec : authCodeRecord req cid ru now =
      { client_id := cid, redirect_uri := ru, scope := req.scope.getD "mcp",
        created_at := now, expires_at := now + 600, code_challenge := none,
        code_challenge_method := none } := by
    simp [authCodeRecord, hch, getTruthy]
  have hstore :
      (saveStorage
        { st with codes := insertKey st.codes fc (authCodeRecord req cid ru now) }).codes
          fc = some (authCodeRecord req cid ru now) := by
    simp [saveStorage, insertKey]
  constructor
  · rw [hstore, hrec]
  · intro s2 req2 f2 now2 cs2 hen2 hgt2 hc2 hcid2 hcs2 hvc2 hred2 hexp2
    rw [handle_token_success hen2 hgt2 hc2 hcid2 hcs2 hvc2
          (hstore.trans (by rw [hrec]))
          (by simpa [hrec] using hexp2)
          (by simp [hred2]) (by simp [hrec]) (by simp [pkceCheck, hrec])]

/-- Witness for C10: method `"bogus"` supplied without a challenge; the
code is stored PKCE-free and exchanges successfully. -/
theorem claim_C10_witness :
    (handle_authorize sEnabled reqAuthM "CODE" 0 emptyState).snd.codes
      "CODE" =
      some { client_id := "c1", redirect_uri := "https://cb",
             scope := reqAuthM.scope.getD "mcp", created_at := 0,
             expires_at := 0 + 600, code_challenge := none,
             code_challenge_method := none } ∧
    (∀ (s2 : Settings) (req2 : TokenRequest) (f2 : String) (now2 : Nat)
       (cs2 : String),
       s2.oauth_enabled = true →
       req2.grant_type = some "authorization_code" →
       getTruthy req2.code = some "CODE" →
       getTruthy req2.client_id = some "c1" →
       getTruthy req2.client_secret = some cs2 →
       verify_client_credentials s2 "c1" cs2 = true →
       getTruthy req2.redirect_uri = none →
       ¬ now2 > 0 + 600 →
       (handle_token s2 req2 f2 now2
          (handle_authorize sEnabled reqAuthM "CODE" 0 emptyState).snd).fst =
         Except.ok (mintedToken f2 "c1" (reqAuthM.scope.getD "mcp") now2)) :=
  claim_C10 sEnabled reqAuthM "CODE" 0 emptyState "c1" "https://cb" "bogus"
    rfl rfl rfl rfl rfl rfl rfl

/-- With every check up to PKCE passing, a failing PKCE block returns
its error and leaves the state untouched. -/
theorem handle_token_pkce_error {s : Settings} {req : TokenRequest}
    {f : String} {now : Nat} {st : OAuthState} {code cid cs : String}
    {acd : AuthCodeData} {e : TokenErr}
    (hen : s.oauth_enabled = true)
    (hgt : req.grant_type = some "authorization_code")
    (hc : getTruthy req.code = some code)
    (hcid : getTruthy req.client_id = some cid)
    (hcs : getTruthy req.client_secret = some cs)
    (hvc : verify_client_credentials s cid cs = true)
    (hacd : st.codes code = some acd)
    (hexp : ¬ now > acd.expires_at)
    (hru : (match getTruthy req.redirect_uri with
            | some ru => ru != acd.redirect_uri
            | none => false) = false)
    (hcm : cid = acd.client_id)
    (hpk : pkceCheck acd req.code_verifier = some e) :
    handle_token s req f now st = (.error e, st) := by
  simp [handle_token, hen, hgt, hc, hcid, hcs, hvc, hacd, hexp, hru, ← hcm,
        hpk]

/-- C4: for an exchange reaching the PKCE step of a code bound to
challenge `ch`: a missing (or empty) verifier fails with the
verifier-required error; under method `S256` the exchange succeeds
exactly when the URL-safe unpadded base64 of the SHA-256 digest of the
verifier equals `ch` (mismatch: PKCE-failed); under method `plain`
exactly when the verifier equals `ch` (mismatch: PKCE-failed); any other
bound method fails with the unsupported-method error. -/
theorem claim_C4 (s : Settings) (req : TokenRequest) (f : String)
    (now : Nat) (st : OAuthState) (code cid cs ch : String)
    (acd : AuthCodeData)
    (hen : s.oauth_enabled = true)
    (hgt : req.grant_type = some "authorization_code")
    (hc : getTruthy req.code = some code)
    (hcid : getTruthy req.client_id = some cid)
    (hcs : getTruthy req.client_secret = some cs)
    (hvc : verify_client_credentials s cid cs = true)
    (hacd : st.codes code = some acd)
    (hexp : ¬ now > acd.expires_at)
    (hru : (match getTruthy req.redirect_uri with
            | some ru => ru != acd.redirect_uri
            | none => false) = false)
    (hcm : cid = acd.client_id)
    (hch : acd.code_challenge = some ch) :
    (getTruthy req.code_verifier = none →
       (handle_token s req f now st).fst =
         Except.error TokenErr.verifierRequired) ∧
    (∀ v, getTruthy req.code_verifier = some v →
       (acd.code_challenge_method = some "S256" →
          ((∃ td, (handle_token s req f now st).fst = Except.ok td) ↔
             s256Transform v = ch) ∧
          (s256Transform v ≠ ch →
             (handle_token s req f now st).fst =
               Except.error TokenErr.pkceFailed)) ∧
       (acd.code_challenge_method = some "plain" →
          ((∃ td, (handle_token s req f now st).fst = Except.ok td) ↔
             v = ch) ∧
          (v ≠ ch →
             (handle_token s req f now st).fst =
               Except.error TokenErr.pkceFailed)) ∧
       (∀ m, acd.code_challenge_method = some m → m ≠ "S256" → m ≠ "plain" →
          (handle_token s req f now st).fst =
            Except.error (TokenErr.unsupportedMethod m))) := by
  constructor
  · intro hv
    rw [handle_token_pkce_error (e := TokenErr.verifierRequired) hen hgt hc
          hcid hcs hvc hacd hexp hru hcm (by simp [pkceCheck, hch, hv])]
  · intro v hv
    refine ⟨?_, ?_, ?_⟩
    · intro hm
      by_cases heq : s256Transform v = ch
      · constructor
        · constructor
          · intro _
            exact heq
          · intro _
            rw [handle_token_success hen hgt hc hcid hcs hvc hacd hexp hru
                  hcm (by simp [pkceCheck, hch, hv, hm, heq])]
            exact ⟨_, rfl⟩
        · intro hne
          exact absurd heq hne
      · constructor
        · constructor
          · intro ⟨td, htd⟩
            rw [handle_token_pkce_error (e := TokenErr.pkceFailed) hen hgt
                  hc hcid hcs hvc hacd hexp hru hcm
                  (by simp [pkceCheck, hch, hv, hm, heq])] at htd
            exact absurd htd (by simp)
          · intro h
            exact absurd h heq
        · intro _
          rw [handle_token_pkce_error (e := TokenErr.pkceFailed) hen hgt hc
                hcid hcs hvc hacd hexp hru hcm
                (by simp [pkceCheck, hch, hv, hm, heq])]
    · intro hm
      by_cases heq : v = ch
      · constructor
        · constructor
          · intro _
            exact heq
          · intro _
            rw [handle_token_success hen hgt hc hcid hcs hvc hacd hexp hru
                  hcm (by simp [pkceCheck, hch, hv, hm, heq])]
            exact ⟨_, rfl⟩
        · intro hne
          exact absurd heq hne
      · constructor
        · constructor
          · intro ⟨td, htd⟩
            rw [handle_token_pkce_error (e := TokenErr.pkceFailed) hen hgt
                  hc hcid hcs hvc hacd hexp hru hcm
                  (by simp [pkceCheck, hch, hv, hm, heq])] at htd
            exact absurd htd (by simp)
          · intro h
            exact absurd h heq
        · intro _
          rw [handle_token_pkce_error (e := TokenErr.pkceFailed) hen hgt hc
                hcid hcs hvc hacd hexp hru hcm
                (by simp [pkceCheck, hch, hv, hm, heq])]
    · intro m hm hm1 hm2
      rw [handle_token_pkce_error (e := TokenErr.unsupportedMethod m) hen
            hgt hc hcid hcs hvc hacd hexp hru hcm
            (by simp [pkceCheck, hch, hv, hm, hm1, hm2])]

/-- Witness for C4: the stored `S256` challenge for verifier `"v"`,
exchanged with `code_verifier = "v"`. -/
theorem claim_C4_witness :
    (getTruthy reqS256.code_verifier = none →
       (handle_token sEnabled reqS256 "TOK" 0 stS256).fst =
         Except.error TokenErr.verifierRequired) ∧
    (∀ v, getTruthy reqS256.code_verifier = some v →
       (acdS256.code_challenge_method = some "S256" →
          ((∃ td, (handle_token sEnabled reqS256 "TOK" 0 stS256).fst =
              Except.ok td) ↔ s256Transform v = s256Transform "v") ∧
          (s256Transform v ≠ s256Transform "v" →
             (handle_token sEnabled reqS256 "TOK" 0 stS256).fst =
               Except.error TokenErr.pkceFailed)) ∧
       (acdS256.code_challenge_method = some "plain" →
          ((∃ td, (handle_token sEnabled reqS256 "TOK" 0 stS256).fst =
              Except.ok td) ↔ v = s256Transform "v") ∧
          (v ≠ s256Transform "v" →
             (handle_token sEnabled reqS256 "TOK" 0 stS256).fst =
               Except.error TokenErr.pkceFailed)) ∧
       (∀ m, acdS256.code_challenge_method = some m → m ≠ "S256" →
          m ≠ "plain" →
          (handle_token sEnabled reqS256 "TOK" 0 stS256).fst =
            Except.error (TokenErr.unsupportedMethod m))) :=
  claim_C4 sEnabled reqS256 "TOK" 0 stS256 "CODE" "c1" "s1"
    (s256Transform "v") acdS256 rfl rfl rfl rfl rfl rfl rfl (by decide)
    rfl rfl rfl

/-- C6: `handle_token` raises exactly the error selected by the spec's
ordered validation list — for every input, the first failing check of
`exchangeChecks` determines the (distinct, terminal) error returned. -/
theorem claim_C6 (s : Settings) (req : TokenRequest) (f : String)
    (now : Nat) (st : OAuthState) (e : TokenErr) :
    (handle_token s req f now st).fst = Except.error e ↔
      firstFailing (exchangeChecks s req now st) = some e := by
  cases hen : s.oauth_enabled with
  | false =>
    simp [handle_token, exchangeChecks, firstFailing, specCheckEnabled, hen]
  | true =>
    by_cases hgt : req.grant_type = some "authorization_code"
    case neg =>
      simp [handle_token, exchangeChecks, firstFailing, specCheckEnabled,
            specCheckGrantType, hen, hgt]
    case pos =>
      cases hc : getTruthy req.code with
      | none =>
        simp [handle_token, exchangeChecks, firstFailing, specCheckEnabled,
              specCheckGrantType, specCheckRequired, hen, hgt, hc]
      | some code =>
        cases hcid : getTruthy req.client_id with
        | none =>
          simp [handle_token, exchangeChecks, firstFailing, specCheckEnabled,
                specCheckGrantType, specCheckRequired, specCheckClient,
                hen, hgt, hc, hcid]
        | some cid =>
          cases hcs : getTruthy req.client_secret with
          | none =>
            simp [handle_token, exchangeChecks, firstFailing,
                  specCheckEnabled, specCheckGrantType, specCheckRequired,
                  specCheckClient, hen, hgt, hc, hcid, hcs]
          | some cs =>
            cases hvc : verify_client_credentials s cid cs with
            | false =>
              simp [handle_token, exchangeChecks, firstFailing,
                    specCheckEnabled, specCheckGrantType, specCheckRequired,
                    specCheckClient, hen, hgt, hc, hcid, hcs, hvc]
            | true =>
              cases hacd : st.codes code with
              | none =>
                simp [handle_token, exchangeChecks, firstFailing,
                      specCheckEnabled, specCheckGrantType,
                      specCheckRequired, specCheckClient,
                      specCheckCodeExists, hen, hgt, hc, hcid, hcs, hvc,
                      hacd]
              | some acd =>
                by_cases hexp : now > acd.expires_at
                case pos =>
                  simp [handle_token, exchangeChecks, firstFailing,
                        specCheckEnabled, specCheckGrantType,
                        specCheckRequired, specCheckClient,
                        specCheckCodeExists, specCheckNotExpired, hen, hgt,
                        hc, hcid, hcs, hvc, hacd, hexp]
                case neg =>
                  rcases hred : getTruthy req.redirect_uri with _ | ru
                  · by_cases hcm : cid = acd.client_id
                    case neg =>
                      simp [handle_token, exchangeChecks, firstFailing,
                            specCheckEnabled, specCheckGrantType,
                            specCheckRequired, specCheckClient,
                            specCheckCodeExists, specCheckNotExpired,
                            specCheckRedirect, specCheckClientBinding, hen,
                            hgt, hc, hcid, hcs, hvc, hacd, hexp, hred, hcm]
                    case pos =>
                      have hvc2 :
                          verify_client_credentials s acd.client_id cs =
                            true := by
                        rw [← hcm]
                        exact hvc
                      cases hpk : pkceCheck acd req.code_verifier with
                      | none =>
                        simp [handle_token, exchangeChecks, firstFailing,
                              specCheckEnabled, specCheckGrantType,
                              specCheckRequired, specCheckClient,
                              specCheckCodeExists, specCheckNotExpired,
                              specCheckRedirect, specCheckClientBinding,
                              specCheckPkce, create_access_token, hen, hgt,
                              hc, hcid, hcs, hvc, hvc2, hacd, hexp, hred, hcm,
                              hpk]
                      | some e2 =>
                        simp [handle_token, exchangeChecks, firstFailing,
                              specCheckEnabled, specCheckGrantType,
                              specCheckRequired, specCheckClient,
                              specCheckCodeExists, specCheckNotExpired,
                              specCheckRedirect, specCheckClientBinding,
                              specCheckPkce, hen, hgt, hc, hcid, hcs, hvc, hvc2,
                              hacd, hexp, hred, hcm, hpk]
                  · by_cases hrum : ru = acd.redirect_uri
                    case neg =>
                      simp [handle_token, exchangeChecks, firstFailing,
                            specCheckEnabled, specCheckGrantType,
                            specCheckRequired, specCheckClient,
                            specCheckCodeExists, specCheckNotExpired,
                            specCheckRedirect, hen, hgt, hc, hcid, hcs,
                            hvc, hacd, hexp, hred, hrum]
                    case pos =>
                      by_cases hcm : cid = acd.client_id
                      case neg =>
                        simp [handle_token, exchangeChecks, firstFailing,
                              specCheckEnabled, specCheckGrantType,
                              specCheckRequired, specCheckClient,
                              specCheckCodeExists, specCheckNotExpired,
                              specCheckRedirect, specCheckClientBinding,
                              hen, hgt, hc, hcid, hcs, hvc, hacd, hexp,
                              hred, hrum, hcm]
                      case pos =>
                        have hvc2 :
                            verify_client_credentials s acd.client_id cs =
                              true := by
                          rw [← hcm]
                          exact hvc
                        cases hpk : pkceCheck acd req.code_verifier with
                        | none =>
                          simp [handle_token, exchangeChecks, firstFailing,
                                specCheckEnabled, specCheckGrantType,
                                specCheckRequired, specCheckClient,
                                specCheckCodeExists, specCheckNotExpired,
                                specCheckRedirect, specCheckClientBinding,
                                specCheckPkce, create_access_token, hen,
                                hgt, hc, hcid, hcs, hvc, hvc2, hacd, hexp, hred,
                                hrum, hcm, hpk]
                        | some e2 =>
                          simp [handle_token, exchangeChecks, firstFailing,
                                specCheckEnabled, specCheckGrantType,
                                specCheckRequired, specCheckClient,
                                specCheckCodeExists, specCheckNotExpired,
                                specCheckRedirect, specCheckClientBinding,
                                specCheckPkce, hen, hgt, hc, hcid, hcs,
                                hvc, hvc2, hacd, hexp, hred, hrum, hcm, hpk]
